import Mathlib

/-!
Verification development for the workyterm request-routing core.

The Rust sources under `src/` are embedded shallowly:
* strings are modelled as `List Char` (Rust `str::len` and slicing are
  byte-based, so UTF-8 byte counts are modelled explicitly by `utf8Size`);
* `f32` keyword scores are modelled with exact rationals `ℚ` (the scores in
  play are small dyadic/decimal sums far from any rounding boundary);
* fallible operations return `Except`; a Rust panic is modelled as `Option`
  returning `none`;
* the file system and the external provider processes are passed explicitly
  (a store value, a generation oracle).
-/

namespace Workyterm

/-- Task types, from `TaskType` in `src/src/team/mod.rs`. -/
inductive TaskType where
  | Write
  | Research
  | Analyze
  | Create
  | Edit
  | Explain
  | Solve
  | General
deriving DecidableEq

/-- Does `text` start with `pat`? Models byte-prefix comparison of
`str::contains`'s matcher at one position (all keywords are ASCII, so
char-level and byte-level agree). -/
def startsWithList : List Char → List Char → Bool
  | _, [] => true
  | [], _ :: _ => false
  | c :: cs, p :: ps => c == p && startsWithList cs ps

/-- Substring test, modelling Rust `str::contains` for literal patterns. -/
def containsSub (text pat : List Char) : Bool :=
  match text with
  | [] => pat.isEmpty
  | _ :: rest => startsWithList text pat || containsSub rest pat

/-- ASCII case folding; models `str::to_lowercase` on the ASCII range (all
keyword tables are ASCII). -/
def rustToLower (c : Char) : Char :=
  if 'A' ≤ c && c ≤ 'Z' then Char.ofNat (c.toNat + 32) else c

/-- Lowercase a request, modelling `request.to_lowercase()`. -/
def lowerText (s : List Char) : List Char := s.map rustToLower

/-- ASCII apostrophe, written via its code point. -/
def apos : Char := Char.ofNat 39

/-- `TaskKeywords::default().write` from `src/src/team/analyzer.rs`. -/
def writeKeywords : List (List Char) :=
  ["write".data, "draft".data, "compose".data, "author".data, "blog".data,
   "article".data, "email".data, "letter".data, "document".data, "report".data,
   "essay".data, "story".data, "script".data, "copy".data, "content".data,
   "post".data, "message".data, "text".data]

/-- `TaskKeywords::default().research`. -/
def researchKeywords : List (List Char) :=
  ["research".data, "find".data, "search".data, "look up".data,
   "discover".data, "learn about".data, "what is".data, "who is".data,
   "where is".data, "when did".data, "how many".data, "statistics".data,
   "facts".data, "information".data, "sources".data, "reference".data]

/-- `TaskKeywords::default().analyze`. -/
def analyzeKeywords : List (List Char) :=
  ["analyze".data, "review".data, "examine".data, "inspect".data,
   "assess".data, "evaluate".data, "code".data, "debug".data, "data".data,
   "compare".data, "contrast".data, "check".data, "audit".data, "test".data,
   "verify".data, "validate".data, "diagnose".data]

/-- `TaskKeywords::default().create`. -/
def createKeywords : List (List Char) :=
  ["create".data, "brainstorm".data, "ideas".data, "design".data,
   "imagine".data, "invent".data, "generate".data, "come up with".data,
   "think of".data, "suggest".data, "propose".data, "innovate".data,
   "concept".data, "vision".data, "plan".data]

/-- `TaskKeywords::default().edit`. -/
def editKeywords : List (List Char) :=
  ["edit".data, "proofread".data, "improve".data, "fix".data, "rewrite".data,
   "polish".data, "refine".data, "revise".data, "correct".data,
   "enhance".data, "clean up".data, "format".data, "restructure".data,
   "reorganize".data]

/-- `TaskKeywords::default().explain`. -/
def explainKeywords : List (List Char) :=
  ["explain".data, "how does".data, "why does".data, "teach".data,
   "help me understand".data, "clarify".data, "describe".data,
   "what does".data, "meaning of".data, "define".data, "elaborate".data,
   "break down".data, "simplify".data, "tutorial".data]

/-- `TaskKeywords::default().solve`; the two keywords containing an
apostrophe are spelled with `apos`. -/
def solveKeywords : List (List Char) :=
  ["solve".data, "problem".data, "issue".data, "error".data, "broken".data,
   "not working".data, "fix".data, "troubleshoot".data, "resolve".data,
   "help with".data, "stuck".data, "can".data ++ [apos] ++ "t".data,
   "won".data ++ [apos] ++ "t".data, "failing".data, "crashed".data]

/-- The keyword table for each scored task type (`TaskType::General` has no
table and is never scored directly). -/
def keywordTable : TaskType → List (List Char)
  | .Write => writeKeywords
  | .Research => researchKeywords
  | .Analyze => analyzeKeywords
  | .Create => createKeywords
  | .Edit => editKeywords
  | .Explain => explainKeywords
  | .Solve => solveKeywords
  | .General => []

/-- The order in which `analyze_request_detailed` pushes the seven scored
types. -/
def scoredTypes : List TaskType :=
  [.Write, .Research, .Analyze, .Create, .Edit, .Explain, .Solve]

/-- The position bonus `1.0 - (index / len) * 0.5` from `score_keywords`. -/
def positionBonus (keywords : List (List Char)) (k : List Char) : ℚ :=
  1 - ((keywords.indexOf k : ℚ) / (keywords.length : ℚ)) * (1 / 2)

/-- `score_keywords` from `src/src/team/analyzer.rs`: the matched keywords in
table order, and the capped score `min (Σ 0.2 * bonus) 1`. -/
def scoreKeywords (text : List Char) (keywords : List (List Char)) :
    ℚ × List (List Char) :=
  let found := keywords.filter (fun k => containsSub text k)
  let score := (found.map (fun k => (1 / 5 : ℚ) * positionBonus keywords k)).sum
  (min score 1, found)

/-- Result record of `analyze_request_detailed` (`TaskAnalysis`). -/
structure TaskAnalysis where
  primary_type : TaskType
  confidence : ℚ
  keywords_found : List (List Char)
  is_complex : Bool
deriving DecidableEq

/-- First element of the scores list after the stable descending sort
`sort_by(|a, b| b.1.partial_cmp(&a.1))`: the earliest entry attaining the
maximal score (a strictly greater later score replaces the current best). -/
def selectBest (scores : List (TaskType × ℚ × List (List Char))) :
    TaskType × ℚ × List (List Char) :=
  match scores with
  | [] => (.General, 0, [])
  | x :: xs => xs.foldl (fun best y => if best.2.1 < y.2.1 then y else best) x

/-- UTF-8 byte width of a character (Rust `str::len` counts bytes). -/
def utf8Size (c : Char) : Nat :=
  if c.toNat < 0x80 then 1
  else if c.toNat < 0x800 then 2
  else if c.toNat < 0x10000 then 3
  else 4

/-- Byte length of a string, modelling Rust `str::len`. -/
def utf8Len (s : List Char) : Nat := (s.map utf8Size).sum

/-- `analyze_request_detailed` from `src/src/team/analyzer.rs`. -/
def analyzeRequestDetailed (request : List Char) : TaskAnalysis :=
  let lower := lowerText request
  let scores := scoredTypes.map (fun tt => (tt, scoreKeywords lower (keywordTable tt)))
  let best := selectBest scores
  let significant := (scores.filter (fun s => (3 / 10 : ℚ) < s.2.1)).length
  { primary_type := if (1 / 5 : ℚ) < best.2.1 then best.1 else .General
    confidence := best.2.1
    keywords_found := best.2.2
    is_complex := decide (1 < significant) || decide (200 < utf8Len request) }

/-- The separator set `['.', ';', '\n']` used by `decompose_request`. -/
def isSeparator (c : Char) : Bool := c == '.' || c == ';' || c == '\n'

/-- Split on separators, modelling Rust `str::split` over a char set
(adjacent separators and string ends produce empty fragments). -/
def splitParts (s : List Char) : List (List Char) :=
  s.foldr
    (fun c acc =>
      if isSeparator c then [] :: acc
      else
        match acc with
        | [] => [[c]]
        | h :: t => (c :: h) :: t)
    [[]]

/-- Rust `str::trim` (ASCII whitespace suffices for the inputs in play). -/
def rustTrim (s : List Char) : List Char :=
  ((s.dropWhile Char.isWhitespace).reverse.dropWhile Char.isWhitespace).reverse

/-- `decompose_request` from `src/src/team/analyzer.rs`. -/
def decomposeRequest (request : List Char) : List (List Char × TaskType) :=
  let analysis := analyzeRequestDetailed request
  if !analysis.is_complex then [(request, analysis.primary_type)]
  else
    let parts := ((splitParts request).map rustTrim).filter (fun p => !p.isEmpty)
    if 1 < parts.length then
      parts.map (fun p => (p, (analyzeRequestDetailed p).primary_type))
    else
      [(request, analysis.primary_type)]

/-! Task orchestrator, from `src/src/team/mod.rs`. -/

/-- Task lifecycle states (`TaskProgress`). -/
inductive TaskProgress where
  | Pending
  | InProgress
  | Completed
  | Failed
deriving DecidableEq

/-- A task record (`Task` in `src/src/team/mod.rs`). -/
structure Task where
  id : Nat
  title : String
  description : List Char
  task_type : TaskType
  status : TaskProgress
  assigned_to : Option String
  result : Option (List Char)
deriving DecidableEq

/-- A team member (`TeamMember` in `src/src/team/mod.rs`). -/
structure TeamMember where
  name : String
  role : String
  specialty : TaskType
  provider_type : String
  available : Bool
deriving DecidableEq

/-- The orchestrator state (`SupportTeam`); the provider map is modelled by
its key set, with each provider's generation behaviour supplied separately
as an oracle. -/
structure SupportTeam where
  members : List TeamMember
  providers : List String
  tasks : List Task
  next_task_id : Nat
deriving DecidableEq

/-- `TaskType::display_name`. -/
def displayName : TaskType → String
  | .Write => "Writing"
  | .Research => "Research"
  | .Analyze => "Analysis"
  | .Create => "Creative"
  | .Edit => "Editing"
  | .Explain => "Explaining"
  | .Solve => "Problem Solving"
  | .General => "General Help"

/-- The keyword-chain classifier `analyze_request` at the bottom of
`src/src/team/mod.rs` (the one `plan_request` actually calls). -/
def analyzeRequest (request : List Char) : TaskType :=
  let lower := lowerText request
  let has := fun (pat : String) => containsSub lower pat.data
  if has "write" || has "draft" || has "compose" || has "blog" || has "email"
      || has "letter" || has "article" || has "story" then .Write
  else if has "research" || has "find" || has "search" || has "look up"
      || has "what is" || has "who is" || has "where is" || has "when did" then .Research
  else if has "analyze" || has "review" || has "code" || has "debug"
      || has "data" || has "compare" then .Analyze
  else if has "create" || has "brainstorm" || has "ideas" || has "design"
      || has "imagine" || has "invent" then .Create
  else if has "edit" || has "proofread" || has "improve" || has "fix"
      || has "rewrite" || has "polish" then .Edit
  else if has "explain" || has "how does" || has "why does" || has "teach"
      || has "help me understand" then .Explain
  else if has "solve" || has "problem" || has "issue" || has "error"
      || has "broken" || has "not working" then .Solve
  else .General

/-- Persona preamble of `create_task_prompt`. -/
def promptContext : TaskType → String
  | .Write => "You are a skilled writer. Create clear, engaging content."
  | .Research => "You are a thorough researcher. Find accurate, relevant information."
  | .Analyze => "You are an analytical expert. Provide detailed, logical analysis."
  | .Create => "You are a creative thinker. Generate innovative, original ideas."
  | .Edit => "You are a meticulous editor. Improve clarity and quality."
  | .Explain => "You are a patient teacher. Explain concepts simply and clearly."
  | .Solve => "You are a problem solver. Find practical, effective solutions."
  | .General => "You are a helpful assistant. Provide useful, friendly assistance."

/-- `create_task_prompt` from `src/src/team/mod.rs`. -/
def createTaskPrompt (request : List Char) (tt : TaskType) (role : String) :
    List Char :=
  (promptContext tt).data ++ "\n\nAs the team's ".data ++ role.data
    ++ ", please help with this request:\n\n".data ++ request

/-- Does the provider key name a CLI-class provider
(`provider_type.ends_with("-cli")`)? -/
def isCliProvider (s : String) : Bool := s.endsWith "-cli"

/-- `SupportTeam::find_member_for_task`. -/
def findMemberForTask (st : SupportTeam) (tt : TaskType) : Option TeamMember :=
  match (st.members.filter (fun m => m.specialty == tt && m.available)).find?
      (fun m => isCliProvider m.provider_type) with
  | some m => some m
  | none =>
    match (if tt == TaskType.General then
        (st.members.filter (fun m => m.available)).find?
          (fun m => isCliProvider m.provider_type)
      else none) with
    | some m => some m
    | none =>
      match st.members.find? (fun m => m.specialty == tt && m.available) with
      | some m => some m
      | none =>
        match (st.members.filter (fun m => m.available)).find?
            (fun m => isCliProvider m.provider_type) with
        | some m => some m
        | none => st.members.find? (fun m => m.available)

/-- `SupportTeam::plan_request`: classifies with `analyze_request` and always
creates a single task, pushed onto the task list. -/
def planRequest (st : SupportTeam) (request : List Char) :
    List Task × SupportTeam :=
  let tt := analyzeRequest request
  let task : Task :=
    { id := st.next_task_id
      title := displayName tt ++ " task"
      description := request
      task_type := tt
      status := .Pending
      assigned_to := (findMemberForTask st tt).map (fun m => m.name)
      result := none }
  ([task],
   { st with next_task_id := st.next_task_id + 1, tasks := st.tasks ++ [task] })

/-- Replace the first element satisfying `p` (models
`iter_mut().find(..)` followed by a field mutation). -/
def updateFirst (p : α → Bool) (f : α → α) : List α → List α
  | [] => []
  | x :: xs => if p x then f x :: xs else x :: updateFirst p f xs

/-- A provider-generation oracle: provider key and prompt to outcome.
Abstracts the `provider.generate(..).await` suspension point. -/
def Gen : Type := String → List Char → Except (List Char) (List Char)

/-- `SupportTeam::process_task`. Returns the call outcome together with the
successor state. Error strings are the `anyhow!` messages of the source. -/
def processTask (gen : Gen) (st : SupportTeam) (task_id : Nat) :
    Except (List Char) (List Char) × SupportTeam :=
  match st.tasks.find? (fun t => t.id == task_id) with
  | none => (.error "Task not found".data, st)
  | some task =>
    let st1 := { st with
      tasks := updateFirst (fun t => t.id == task_id)
        (fun t => { t with status := .InProgress }) st.tasks }
    match st.members.find? (fun m => some m.name == task.assigned_to) with
    | none => (.error "No team member assigned".data, st1)
    | some member =>
      if st.providers.contains member.provider_type then
        let prompt := createTaskPrompt task.description task.task_type member.role
        match gen member.provider_type prompt with
        | .ok response =>
          (.ok response, { st1 with
            tasks := updateFirst (fun t => t.id == task_id)
              (fun t => { t with status := .Completed, result := some response })
              st1.tasks })
        | .error e =>
          (.error e, { st1 with
            tasks := updateFirst (fun t => t.id == task_id)
              (fun t => { t with status := .Failed }) st1.tasks })
      else (.error "Provider not available".data, st1)

/-- `SupportTeam::handle_request`: plan, then process each planned task in
order, rendering per-task failures inline as `Error: ...` lines. -/
def handleRequest (gen : Gen) (st : SupportTeam) (request : List Char) :
    Except (List Char) (List Char × List Task) × SupportTeam :=
  let pr := planRequest st request
  let tasks := pr.1
  let st1 := pr.2
  if tasks.isEmpty then
    (.error "Could not create tasks for this request".data, st1)
  else
    let res := tasks.foldl
      (fun (acc : List (List Char) × SupportTeam) t =>
        match processTask gen acc.2 t.id with
        | (.ok r, st') => (acc.1 ++ [r], st')
        | (.error e, st') => (acc.1 ++ ["Error: ".data ++ e], st'))
      ([], st1)
    (.ok (List.intercalate "\n\n".data res.1, res.2.tasks), res.2)

/-- Member records created by `create_team_members_and_providers`. -/
def gemMember : TeamMember :=
  ⟨"Gem", "Researcher", .Research, "gemini-cli", true⟩

/-- Writer persona bound to the Gemini CLI provider. -/
def irisMember : TeamMember :=
  ⟨"Iris", "Writer", .Write, "gemini-cli", true⟩

/-- Explainer persona bound to the Gemini CLI provider. -/
def novaMember : TeamMember :=
  ⟨"Nova", "Explainer", .Explain, "gemini-cli", true⟩

/-- Analyst persona bound to the Codex CLI provider. -/
def devMember : TeamMember :=
  ⟨"Dev", "Analyst", .Analyze, "codex-cli", true⟩

/-- Problem-solver persona bound to the Codex CLI provider. -/
def codyMember : TeamMember :=
  ⟨"Cody", "Problem Solver", .Solve, "codex-cli", true⟩

/-- Editor persona bound to the Claude CLI provider. -/
def alexMember : TeamMember :=
  ⟨"Alex", "Editor", .Edit, "claude-cli", true⟩

/-- Creative persona bound to the Claude CLI provider. -/
def samMember : TeamMember :=
  ⟨"Sam", "Creative", .Create, "claude-cli", true⟩

/-- General assistant persona bound to the Ollama provider. -/
def localMember : TeamMember :=
  ⟨"Local", "General Assistant", .General, "ollama", true⟩

/-- The unavailable placeholder member created when no provider is
reachable. -/
def placeholderMember : TeamMember :=
  ⟨"Team", "Assistant", .General, "none", false⟩

/-- `create_team_members_and_providers` from `src/src/team/mod.rs`;
`hasOllamaConfig` models `config.providers.get("ollama").is_some()`. -/
def createTeamMembersAndProviders (available : List String)
    (hasOllamaConfig : Bool) : List TeamMember × List String :=
  let s0 : List TeamMember × List String := ([], [])
  let s1 := if available.contains "gemini-cli" then
      (s0.1 ++ [gemMember, irisMember, novaMember], s0.2 ++ ["gemini-cli"])
    else s0
  let s2 := if available.contains "codex-cli" then
      (s1.1 ++ [devMember, codyMember], s1.2 ++ ["codex-cli"])
    else s1
  let s3 := if available.contains "claude-cli" then
      (s2.1 ++ [alexMember, samMember], s2.2 ++ ["claude-cli"])
    else s2
  let s4 := if available.contains "ollama" && hasOllamaConfig then
      (s3.1 ++ [localMember], s3.2 ++ ["ollama"])
    else s3
  if s4.1.isEmpty then ([placeholderMember], s4.2) else s4

/-- `SupportTeam::new` with the detected provider set passed explicitly
(detection is an external availability probe). -/
def newSupportTeam (available : List String) (hasOllamaConfig : Bool) :
    SupportTeam :=
  let mp := createTeamMembersAndProviders available hasOllamaConfig
  ⟨mp.1, mp.2, [], 1⟩

/-!
Response cache, from `src/src/cache.rs`.

`cache_key` feeds the query and the model name into
`std::collections::hash_map::DefaultHasher`, which is SipHash-1-3 with both
keys zero; `str`'s `Hash` instance writes the UTF-8 bytes of the string
followed by the single byte `0xff`. Arithmetic is on `Nat` with explicit
reduction modulo `2^64`.
-/

/-- `2^64`, the machine-word modulus. -/
def M64 : Nat := 18446744073709551616

/-- 64-bit rotate left (operands below `2^64`). -/
def rotl64 (x r : Nat) : Nat := ((x <<< r) % M64) ||| (x >>> (64 - r))

/-- The four 64-bit state words of SipHash. -/
structure SipState where
  v0 : Nat
  v1 : Nat
  v2 : Nat
  v3 : Nat

/-- One SipRound. -/
def sipRound (s : SipState) : SipState :=
  let v0 := (s.v0 + s.v1) % M64
  let v1 := rotl64 s.v1 13
  let v1 := v1 ^^^ v0
  let v0 := rotl64 v0 32
  let v2 := (s.v2 + s.v3) % M64
  let v3 := rotl64 s.v3 16
  let v3 := v3 ^^^ v2
  let v2 := (v2 + v1) % M64
  let v1 := rotl64 v1 17
  let v1 := v1 ^^^ v2
  let v2 := rotl64 v2 32
  let v0 := (v0 + v3) % M64
  let v3 := rotl64 v3 21
  let v3 := v3 ^^^ v0
  ⟨v0, v1, v2, v3⟩

/-- One SipHash-1-3 compression step for a message word `m`
(one round per word). -/
def sipCompress (s : SipState) (m : Nat) : SipState :=
  let s := { s with v3 := s.v3 ^^^ m }
  let s := sipRound s
  { s with v0 := s.v0 ^^^ m }

/-- Little-endian value of a byte list (first byte least significant). -/
def leBytes (bs : List Nat) : Nat := bs.foldr (fun b acc => b + (acc <<< 8)) 0

/-- Split a byte stream into full 8-byte words plus the remainder tail. -/
def chunks8 (bs : List Nat) : List (List Nat) × List Nat :=
  bs.foldl
    (fun acc b =>
      let cur := acc.2 ++ [b]
      if cur.length == 8 then (acc.1 ++ [cur], []) else (acc.1, cur))
    ([], [])

/-- SipHash-1-3 with both keys zero over a byte stream, as computed by
`DefaultHasher::new()` + `finish()`. -/
def siphash13 (bs : List Nat) : Nat :=
  let s : SipState :=
    ⟨0x736f6d6570736575, 0x646f72616e646f6d, 0x6c7967656e657261, 0x7465646279746573⟩
  let c := chunks8 bs
  let s := c.1.foldl (fun s w => sipCompress s (leBytes w)) s
  let b := (((bs.length % 256) <<< 56) % M64) ||| leBytes c.2
  let s := sipCompress s b
  let s := { s with v2 := s.v2 ^^^ 0xff }
  let s := sipRound (sipRound (sipRound s))
  s.v0 ^^^ s.v1 ^^^ s.v2 ^^^ s.v3

/-- UTF-8 bytes of one character. -/
def charUtf8Bytes (c : Char) : List Nat :=
  let n := c.toNat
  if n < 0x80 then [n]
  else if n < 0x800 then
    [0xC0 ||| (n >>> 6), 0x80 ||| (n &&& 0x3F)]
  else if n < 0x10000 then
    [0xE0 ||| (n >>> 12), 0x80 ||| ((n >>> 6) &&& 0x3F), 0x80 ||| (n &&& 0x3F)]
  else
    [0xF0 ||| (n >>> 18), 0x80 ||| ((n >>> 12) &&& 0x3F),
     0x80 ||| ((n >>> 6) &&& 0x3F), 0x80 ||| (n &&& 0x3F)]

/-- UTF-8 bytes of a string. -/
def utf8Bytes (s : List Char) : List Nat := s.flatMap charUtf8Bytes

/-- Hex digit characters, lowercase. -/
def hexDigit (n : Nat) : Char :=
  if n < 10 then Char.ofNat (48 + n) else Char.ofNat (87 + n)

/-- Sixteen-digit zero-padded lowercase hex, Rust
`format!("\x7b:016x\x7d", u64)`. -/
def hex16 (n : Nat) : List Char :=
  ((List.range 16).reverse).map (fun i => hexDigit ((n >>> (4 * i)) &&& 15))

/-- `ResponseCache::cache_key`: hash the query, then the model, through
`DefaultHasher` and format the 64-bit result as 16 hex digits. -/
def cacheKey (query model : List Char) : List Char :=
  hex16 (siphash13 (utf8Bytes query ++ [0xff] ++ utf8Bytes model ++ [0xff]))

/-- A cache entry (`CacheEntry` in `src/src/cache.rs`), timestamps in
seconds. -/
structure CacheEntry where
  query : List Char
  model : List Char
  response : List Char
  created_at : Nat
  ttl_secs : Nat
deriving DecidableEq

/-- `CacheEntry::is_expired` at a given current time (strict: valid at
exactly `created_at + ttl_secs`). -/
def isExpired (e : CacheEntry) (now : Nat) : Bool :=
  decide (e.created_at + e.ttl_secs < now)

/-- Cache configuration (`ResponseCache` minus the directory path). -/
structure ResponseCache where
  enabled : Bool
  default_ttl : Nat
deriving DecidableEq

/-- The cache directory contents: one parseable JSON file per key. Corrupt
or foreign files are outside this model (reads of them are misses). -/
def CacheStore : Type := List (List Char × CacheEntry)

/-- Look up the file for a key. -/
def storeFind (store : CacheStore) (key : List Char) : Option CacheEntry :=
  (store.find? (fun kv => kv.1 == key)).map (fun kv => kv.2)

/-- Delete the file for a key (`fs::remove_file`). -/
def storeErase (store : CacheStore) (key : List Char) : CacheStore :=
  store.filter (fun kv => kv.1 != key)

/-- Write the file for a key, replacing any previous contents
(`fs::write`). -/
def storeWrite (store : CacheStore) (key : List Char) (e : CacheEntry) :
    CacheStore :=
  (key, e) :: storeErase store key

/-- `ResponseCache::get`: miss when disabled or absent; an expired entry is
deleted and reported as a miss. Returns the result and the successor
store. -/
def cacheGet (c : ResponseCache) (store : CacheStore) (now : Nat)
    (query model : List Char) : Option (List Char) × CacheStore :=
  if !c.enabled then (none, store)
  else
    let key := cacheKey query model
    (storeFind store key).elim (none, store)
      (fun entry =>
        if isExpired entry now then (none, storeErase store key)
        else (some entry.response, store))

/-- `ResponseCache::set`: no-op when disabled, otherwise write an entry
stamped `now` with the configured TTL. -/
def cacheSet (c : ResponseCache) (store : CacheStore) (now : Nat)
    (query model response : List Char) : CacheStore :=
  if !c.enabled then store
  else
    storeWrite store (cacheKey query model)
      ⟨query, model, response, now, c.default_ttl⟩

/-!
Council deliberation, from `src/src/llm/council.rs`.

`truncate_response` slices the string at a byte index; Rust panics when the
index is not a character boundary, which the model renders as `none`.
-/

/-- Take a prefix of exactly `n` UTF-8 bytes; `none` when `n` falls inside a
multi-byte character (Rust byte-slice panic `byte index is not a char
boundary`). -/
def byteSlice : List Char → Nat → Option (List Char)
  | _, 0 => some []
  | [], _ + 1 => none
  | c :: cs, n + 1 =>
    if utf8Size c ≤ n + 1 then
      (byteSlice cs (n + 1 - utf8Size c)).map (fun l => c :: l)
    else none

/-- `truncate_response` from `src/src/llm/council.rs`:
`&response[..max_len]` when the byte length exceeds `max_len`. -/
def truncateResponse (response : List Char) (max_len : Nat) :
    Option (List Char) :=
  if utf8Len response ≤ max_len then some response
  else byteSlice response max_len

/-- One `=== name ===` context section of `Council::deliberate`
(truncation length 500). -/
def contextSection (name : List Char) (response : List Char) :
    Option (List Char) :=
  (truncateResponse response 500).map
    (fun r => "=== ".data ++ name ++ " ===\n".data ++ r ++ "\n".data)

/-- The shared context block built at the end of each deliberation round:
sections for the round's surviving responses, joined by newlines. `none`
propagates a truncation panic. -/
def contextBlock (round_responses : List (List Char × List Char)) :
    Option (List Char) :=
  ((round_responses.map (fun p => contextSection p.1 p.2)).foldr
      (fun o acc => acc.bind (fun l => o.map (fun x => x :: l))) (some []))
    |>.map (List.intercalate "\n".data)

/-- One numbered section of the synthesis prompt (truncation length 800). -/
def synthesisSection (i : Nat) (response : List Char) :
    Option (List Char) :=
  (truncateResponse response 800).map
    (fun r => "Response ".data ++ (toString (i + 1)).data ++ ":\n".data
      ++ r ++ "\n".data)

/-- The synthesis prompt of `Council::synthesize` for the final surviving
responses. -/
def synthesisPrompt (task : List Char) (final_responses : List (List Char)) :
    Option (List Char) :=
  (((final_responses.enum.map (fun p => synthesisSection p.1 p.2)).foldr
      (fun o acc => acc.bind (fun l => o.map (fun x => x :: l))) (some []))
    |>.map (List.intercalate "\n".data)).map
    (fun body =>
      "You are synthesizing responses from multiple AI council members.\n\nOriginal task: ".data
        ++ task
        ++ "\n\nCouncil responses:\n".data ++ body
        ++ "\n\nPlease synthesize these responses into a single, cohesive answer that:\n1. Incorporates the best ideas from each response\n2. Resolves any contradictions\n3. Maintains clarity and usefulness\n\nProvide only the synthesized response, without meta-commentary.".data)

/-- Outcome of a council operation: the `anyhow` message of
`Council::synthesize` when every member failed, a provider error, or a
modelled panic. -/
def AllCouncilMembersFailedMsg : List Char :=
  "No responses from council members".data

/-- `Council::synthesize`, with the synthesis provider's behaviour passed as
an oracle over the synthesis prompt. `responses` is the accumulated map
from member name to that member's per-round responses (entries are created
only on a successful call, so stored lists are non-empty); its iteration
order is the map's. Returns the outcome paired with the number of provider
calls made. A truncation panic in prompt construction is rendered as a
dedicated error value. -/
def councilSynthesize (gen : List Char → Except (List Char) (List Char))
    (task : List Char) (responses : List (List Char × List (List Char))) :
    Except (List Char) (List Char) × Nat :=
  let final_responses := responses.filterMap (fun p => p.2.getLast?)
  if final_responses.isEmpty then (.error AllCouncilMembersFailedMsg, 0)
  else if final_responses.length == 1 then (.ok (final_responses.headD []), 0)
  else
    match synthesisPrompt task final_responses with
    | some prompt => (gen prompt, 1)
    | none => (.error "panic: byte index is not a char boundary".data, 1)

/-!
Streaming subprocess adapter, from `ClaudeCliProvider::generate_streaming`
in `src/src/llm/provider.rs` (the Codex and Gemini variants are
line-for-line identical apart from the spawned command).

The subprocess's stdout is abstracted as the list of lines the
`BufReader::lines` loop yields (newlines already stripped), plus the
process's final exit status.
-/

/-- The chunks delivered to the sink callback: for every line, the line and
then a separate `"\n"` chunk. -/
def streamedChunks (lines : List (List Char)) : List (List Char) :=
  lines.flatMap (fun l => [l, "\n".data])

/-- The accumulated `full_response`: each line appended, preceded by `'\n'`
only when the accumulator is non-empty. -/
def fullResponse (lines : List (List Char)) : List Char :=
  lines.foldl (fun acc l => if acc.isEmpty then acc ++ l else acc ++ "\n".data ++ l) []

/-- `ClaudeCliProvider::generate_streaming` outcome: the chunks the sink
received (emitted before the exit status is observed), and the returned
value (an error exactly when the process exits non-zero). -/
def generateStreaming (lines : List (List Char)) (exitOk : Bool) :
    List (List Char) × Except (List Char) (List Char) :=
  (streamedChunks lines,
   if exitOk then .ok (fullResponse lines)
   else .error "Claude CLI exited with error".data)

/-!
Goal tracking, from `src/src/team/workflow.rs`.
-/

/-- Goal status (`GoalStatus`). -/
inductive GoalStatus where
  | Active
  | Completed
  | Failed
deriving DecidableEq

/-- A goal record (`Goal` in `src/src/team/workflow.rs`). -/
structure Goal where
  id : Nat
  title : String
  description : String
  tasks : List Nat
  status : GoalStatus
deriving DecidableEq

/-- The status-update body of `WorkflowManager::update_goal_status` applied
to one goal: member tasks are the given tasks whose ids the goal lists;
no member tasks leaves the goal untouched; all completed wins over any
failed; otherwise the status is unchanged. -/
def updateGoal (g : Goal) (tasks : List Task) : Goal :=
  let goal_tasks := tasks.filter (fun t => g.tasks.contains t.id)
  if goal_tasks.isEmpty then g
  else if goal_tasks.all (fun t => t.status == TaskProgress.Completed) then
    { g with status := .Completed }
  else if goal_tasks.any (fun t => t.status == TaskProgress.Failed) then
    { g with status := .Failed }
  else g

/-- `WorkflowManager::update_goal_status`: update the first goal with the
given id. -/
def updateGoalStatus (goals : List Goal) (goal_id : Nat)
    (tasks : List Task) : List Goal :=
  updateFirst (fun g => g.id == goal_id) (fun g => updateGoal g tasks) goals

/-- Aggregate goal status as the amended claim states it: with member tasks
present, Completed when all are complete, else Failed when any has failed
(even if other member tasks are still pending), else the previous status
persists. -/
def derivedGoalStatus (old : GoalStatus) (member_tasks : List Task) :
    GoalStatus :=
  if member_tasks.isEmpty then old
  else if member_tasks.all (fun t => t.status == TaskProgress.Completed) then
    .Completed
  else if member_tasks.any (fun t => t.status == TaskProgress.Failed) then
    .Failed
  else old

/-! Theorems. -/

/-- Finding the key just written yields the written entry. -/
theorem storeFind_write_self (store : CacheStore) (k : List Char)
    (e : CacheEntry) : storeFind (storeWrite store k e) k = some e := by
  simp [storeFind, storeWrite, List.find?]

/-- Erasing a key removes every file for it. -/
theorem storeFind_erase_self (store : CacheStore) (k : List Char) :
    storeFind (storeErase store k) k = none := by
  have h : List.find? (fun kv => kv.1 == k)
      (List.filter (fun kv => kv.1 != k) store) = none := by
    rw [List.find?_eq_none]
    intro kv hkv
    simp only [List.mem_filter, bne_iff_ne, ne_eq] at hkv
    simp [hkv.2]
  simp [storeFind, storeErase, h]

/-- C5: with caching enabled and a positive TTL, `set` followed by `get` at
the same time returns the stored response; once the current time strictly
exceeds `created_at + ttl_secs`, `get` misses and deletes the backing
entry. -/
theorem c5_cache_roundtrip (c : ResponseCache) (store : CacheStore)
    (now : Nat) (q m r : List Char) (henabled : c.enabled = true)
    (_httl : 0 < c.default_ttl) :
    (cacheGet c (cacheSet c store now q m r) now q m).1 = some r ∧
    ∀ now', now + c.default_ttl < now' →
      (cacheGet c (cacheSet c store now q m r) now' q m).1 = none ∧
      storeFind (cacheGet c (cacheSet c store now q m r) now' q m).2
        (cacheKey q m) = none := by
  have hset : cacheSet c store now q m r =
      storeWrite store (cacheKey q m) ⟨q, m, r, now, c.default_ttl⟩ := by
    simp [cacheSet, henabled]
  constructor
  · rw [hset]
    simp [cacheGet, henabled, storeFind_write_self, isExpired]
  · intro now' hlate
    have hexp : isExpired ⟨q, m, r, now, c.default_ttl⟩ now' = true := by
      simpa [isExpired] using hlate
    rw [hset]
    have hget : cacheGet c
        (storeWrite store (cacheKey q m) ⟨q, m, r, now, c.default_ttl⟩)
        now' q m =
        (none, storeErase
          (storeWrite store (cacheKey q m) ⟨q, m, r, now, c.default_ttl⟩)
          (cacheKey q m)) := by
      simp [cacheGet, henabled, storeFind_write_self, hexp]
    rw [hget]
    exact ⟨rfl, storeFind_erase_self _ _⟩

/-- C5 witness: concrete round-trip with TTL 60, written at time 0 and read
at times 0 and 61. -/
theorem c5_cache_roundtrip_witness :
    (cacheGet ⟨true, 60⟩ (cacheSet ⟨true, 60⟩ [] 0 "q".data "m".data "r".data)
      0 "q".data "m".data).1 = some "r".data ∧
    (cacheGet ⟨true, 60⟩ (cacheSet ⟨true, 60⟩ [] 0 "q".data "m".data "r".data)
      61 "q".data "m".data).1 = none ∧
    storeFind (cacheGet ⟨true, 60⟩
      (cacheSet ⟨true, 60⟩ [] 0 "q".data "m".data "r".data)
      61 "q".data "m".data).2 (cacheKey "q".data "m".data) = none := by
  have h := c5_cache_roundtrip ⟨true, 60⟩ [] 0 "q".data "m".data "r".data
    rfl (by decide)
  exact ⟨h.1, (h.2 61 (by decide)).1, (h.2 61 (by decide)).2⟩

/-- C6: when after all rounds exactly one member response survives, the
council returns it verbatim without calling the synthesis provider (call
count 0); when none survives, the operation fails with the
all-members-failed error, again without a synthesis call. -/
theorem c6_council_survivors (gen : List Char → Except (List Char) (List Char))
    (task : List Char) (responses : List (List Char × List (List Char))) :
    (∀ r, responses.filterMap (fun p => p.2.getLast?) = [r] →
      councilSynthesize gen task responses = (.ok r, 0)) ∧
    (responses.filterMap (fun p => p.2.getLast?) = [] →
      councilSynthesize gen task responses =
        (.error AllCouncilMembersFailedMsg, 0)) := by
  constructor
  · intro r h
    simp [councilSynthesize, h]
  · intro h
    simp [councilSynthesize, h]

/-- C6 witness: one surviving member returns its final response verbatim;
an empty response map fails with the all-members-failed error. -/
theorem c6_council_survivors_witness :
    councilSynthesize (fun _ => .error []) "t".data
      [("A".data, ["x".data, "y".data])] = (.ok "y".data, 0) ∧
    councilSynthesize (fun _ => .error []) "t".data [] =
      (.error AllCouncilMembersFailedMsg, 0) :=
  ⟨(c6_council_survivors (fun _ => .error []) "t".data
      [("A".data, ["x".data, "y".data])]).1 "y".data rfl,
   (c6_council_survivors (fun _ => .error []) "t".data []).2 rfl⟩

/-- A 501-byte response whose 500th byte falls inside the two-byte character
`é`. -/
def overlongResponse : List Char := List.replicate 499 'a' ++ ['é']

/-- C7: the truncation used for deliberation context (length 500) is not
total — on a response whose 500th byte is inside a multi-byte character the
slice `&response[..500]` panics (modelled as `none`), so building the
context block for that member also panics. -/
theorem c7_truncation_panics :
    truncateResponse overlongResponse 500 = none ∧
    contextSection "Claude".data overlongResponse = none ∧
    utf8Len overlongResponse = 501 := by
  set_option maxRecDepth 8000 in decide

/-- C8: the key derivation is deterministic (equal query/provider pairs give
equal keys), but it is order-dependent, not order-independent: hashing the
query before the provider identity distinguishes the two orders. -/
theorem c8_cache_key_deterministic_not_symmetric :
    (∀ q p q' p', q = q' → p = p' → cacheKey q p = cacheKey q' p') ∧
    cacheKey "a".data "b".data ≠ cacheKey "b".data "a".data := by
  constructor
  · intro q p q' p' hq hp
    rw [hq, hp]
  · decide

/-- C8 counterexample: the claimed symmetry `cache_key(q, p) =
cache_key(p, q)` fails already at `q = "a"`, `p = "b"`. -/
theorem c8_cache_key_not_symmetric_counterexample :
    ¬ cacheKey "a".data "b".data = cacheKey "b".data "a".data := by
  decide

/-- C8 witness: the determinism half applied at a concrete pair. -/
theorem c8_cache_key_deterministic_witness :
    cacheKey "x".data "y".data = cacheKey "x".data "y".data :=
  c8_cache_key_deterministic_not_symmetric.1 "x".data "y".data "x".data
    "y".data rfl rfl

/-- A goal over tasks 1 and 2, as created by `create_goal`. -/
def c9Goal : Goal := ⟨1, "g", "d", [1, 2], .Active⟩

/-- Member task 1 failed; member task 2 still pending (it can still
complete). -/
def c9Tasks : List Task :=
  [⟨1, "t1", [], .General, .Failed, none, none⟩,
   ⟨2, "t2", [], .General, .Pending, none, none⟩]

/-- C9 counterexample: `update_goal_status` marks the goal Failed although a
member task is still Pending and could still complete, contradicting the
claim that Failed requires that no remaining task can complete. -/
theorem c9_goal_failed_despite_pending :
    (updateGoalStatus [c9Goal] 1 c9Tasks).map Goal.status = [.Failed] ∧
    (c9Tasks.filter (fun t => c9Goal.tasks.contains t.id)).any
      (fun t => t.status == TaskProgress.Pending) = true := by
  decide

/-- C9 amended: after `update_goal_status`, only the first goal with the
given id changes and only in its status field, which becomes: Completed when
all member tasks are complete; otherwise Failed as soon as any member task
failed, even if other member tasks are still pending; otherwise (including
when no member task is present) the previous status persists. -/
theorem c9_goal_status_derivation (goals : List Goal) (goal_id : Nat)
    (tasks : List Task) :
    updateGoalStatus goals goal_id tasks =
      updateFirst (fun g => g.id == goal_id)
        (fun g => { g with
          status := derivedGoalStatus g.status
            (tasks.filter (fun t => g.tasks.contains t.id)) }) goals := by
  unfold updateGoalStatus
  congr 1
  funext g
  show updateGoal g tasks = _
  unfold updateGoal derivedGoalStatus
  cases g with
  | mk id title description gtasks status =>
    dsimp only
    split
    · rfl
    · split
      · rfl
      · split
        · rfl
        · rfl

/-- A request whose decomposition yields three fragments: two intents score
above 0.3 (making it complex) and it splits on `;` and `.`. -/
def c3Request : List Char :=
  "research cats; write about dogs. edit the essay".data

set_option maxRecDepth 40000 in
/-- C3 counterexample: this request decomposes into three fragments, yet
`plan_request` still creates exactly one task (it never calls
`decompose_request`), so planning does not create one task per fragment. -/
theorem c3_one_task_despite_fragments :
    (decomposeRequest c3Request).length = 3 ∧
    (planRequest (newSupportTeam ["claude-cli"] false) c3Request).1.length = 1 := by
  with_unfolding_all decide

/-- C3 amended: `plan_request` always creates exactly one Pending task for
the whole request, whether or not the request would decompose; its id is the
current counter, its provider assignment is fixed at planning time from
`find_member_for_task`, and the task is appended to the session task list
with the counter incremented. -/
theorem c3_plan_single_task (st : SupportTeam) (request : List Char) :
    (planRequest st request).1.length = 1 ∧
    (∀ t ∈ (planRequest st request).1,
      t.status = TaskProgress.Pending ∧
      t.id = st.next_task_id ∧
      t.description = request ∧
      t.assigned_to =
        (findMemberForTask st (analyzeRequest request)).map (fun m => m.name) ∧
      t.result = none) ∧
    (planRequest st request).2.tasks = st.tasks ++ (planRequest st request).1 ∧
    (planRequest st request).2.next_task_id = st.next_task_id + 1 := by
  refine ⟨rfl, ?_, rfl, rfl⟩
  intro t ht
  simp only [planRequest, List.mem_singleton] at ht
  subst ht
  exact ⟨rfl, rfl, rfl, rfl, rfl⟩

/-- C3 witness: the amended statement at a concrete state and request. -/
theorem c3_plan_single_task_witness :
    (planRequest (newSupportTeam [] false) "hi".data).1.length = 1 ∧
    (∀ t ∈ (planRequest (newSupportTeam [] false) "hi".data).1,
      t.status = TaskProgress.Pending ∧
      t.id = (newSupportTeam [] false).next_task_id ∧
      t.description = "hi".data ∧
      t.assigned_to = (findMemberForTask (newSupportTeam [] false)
        (analyzeRequest "hi".data)).map (fun m => m.name) ∧
      t.result = none) ∧
    (planRequest (newSupportTeam [] false) "hi".data).2.tasks =
      (newSupportTeam [] false).tasks ++
        (planRequest (newSupportTeam [] false) "hi".data).1 ∧
    (planRequest (newSupportTeam [] false) "hi".data).2.next_task_id =
      (newSupportTeam [] false).next_task_id + 1 :=
  c3_plan_single_task (newSupportTeam [] false) "hi".data

/-- No member is ever selected when the team holds only the unavailable
placeholder created for an empty provider set. -/
theorem findMember_placeholder_none (tt : TaskType) :
    findMemberForTask ⟨[⟨"Team", "Assistant", .General, "none", false⟩], [], [], 1⟩ tt
      = none := by
  simp [findMemberForTask, List.find?, List.filter]

/-- C2 counterexample: with zero reachable providers, `plan` + `execute`
does not surface any failure to the caller (the result is `Ok`), and the
planned task is neither absent nor Failed — it is left `InProgress`. -/
theorem c2_zero_providers_ok_inprogress :
    (handleRequest (fun _ _ => .error "unreachable".data)
      (newSupportTeam [] false) "hi".data).1.isOk = true ∧
    ((handleRequest (fun _ _ => .error "unreachable".data)
      (newSupportTeam [] false) "hi".data).2.tasks.map Task.status)
      = [TaskProgress.InProgress] := by
  decide

/-- C2 amended: with zero reachable providers, `plan_request` still creates
the task (assigned to nobody), `process_task` fails early with "No team
member assigned" after having already marked it `InProgress`, and
`handle_request` swallows that failure, returning `Ok` with the error
rendered inline; the task ends `InProgress`, not Failed. -/
theorem c2_zero_providers_inline_error (gen : Gen) (req : List Char) :
    (handleRequest gen (newSupportTeam [] false) req).1 =
      .ok ("Error: No team member assigned".data,
           (handleRequest gen (newSupportTeam [] false) req).2.tasks) ∧
    (handleRequest gen (newSupportTeam [] false) req).2.tasks.map Task.status
      = [TaskProgress.InProgress] := by
  simp [handleRequest, planRequest, findMember_placeholder_none, processTask,
    List.find?, updateFirst, newSupportTeam, createTeamMembersAndProviders,
    placeholderMember, List.intercalate]

/-- Once the accumulator is non-empty, each further line is appended behind
a newline separator. -/
theorem foldl_acc_nonempty (rest : List (List Char)) :
    ∀ acc : List Char, acc ≠ [] →
    rest.foldl (fun acc l => if acc.isEmpty then acc ++ l else acc ++ "\n".data ++ l) acc
      = acc ++ rest.flatMap (fun l => '\n' :: l) := by
  induction rest with
  | nil => intro acc _; simp
  | cons l rest ih =>
    intro acc h
    have hne : acc.isEmpty = false := by simpa [List.isEmpty_iff] using h
    have hstep : (if acc.isEmpty then acc ++ l else acc ++ "\n".data ++ l)
        = acc ++ "\n".data ++ l := by rw [hne]; simp
    have hnn : acc ++ "\n".data ++ l ≠ [] := by simp
    calc rest.foldl (fun acc l => if acc.isEmpty then acc ++ l else acc ++ "\n".data ++ l)
          (if acc.isEmpty then acc ++ l else acc ++ "\n".data ++ l)
        = rest.foldl _ (acc ++ "\n".data ++ l) := by rw [hstep]
      _ = (acc ++ "\n".data ++ l) ++ rest.flatMap (fun l => '\n' :: l) := ih _ hnn
      _ = acc ++ (l :: rest).flatMap (fun l => '\n' :: l) := by simp

/-- Moving the leading newline of a newline-terminated block to its end. -/
theorem chunks_shift (rest : List (List Char)) :
    '\n' :: (rest.flatMap (fun l => l ++ ['\n'])) =
      rest.flatMap (fun l => '\n' :: l) ++ ['\n'] := by
  induction rest with
  | nil => rfl
  | cons x rest ih =>
    simp only [List.flatMap_cons, List.cons_append, List.append_assoc,
      List.singleton_append, List.nil_append]
    rw [ih]

/-- The bytes the sink receives are each line followed by a newline. -/
theorem flatten_streamedChunks (ls : List (List Char)) :
    (streamedChunks ls).flatten = ls.flatMap (fun l => l ++ ['\n']) := by
  induction ls with
  | nil => rfl
  | cons l rest ih =>
    simp [streamedChunks] at ih ⊢
    simp [ih]

/-- C4 counterexample: for the single stdout line `hi` the sink receives the
bytes `hi` and `\n`, while the stored and returned value is `hi` — the sink
stream is not byte-identical to the returned text. -/
theorem c4_sink_return_mismatch :
    (generateStreaming ["hi".data] true).2 = .ok "hi".data ∧
    (generateStreaming ["hi".data] true).1.flatten = "hi\n".data ∧
    ("hi\n".data : List Char) ≠ "hi".data :=
  ⟨rfl, by decide, by decide⟩

/-- C4 amended: the sink receives the returned text plus exactly one
trailing newline (it gets every line followed by a newline, while the
return value joins the same lines with separating newlines only), provided
the first line read is non-empty; with no lines both are empty. (Leading
empty lines would additionally be dropped from the return value but not
from the sink stream.) -/
theorem c4_stream_is_return_plus_newline (lines : List (List Char))
    (h : lines.head? ≠ some []) :
    (generateStreaming lines true).2 = .ok (fullResponse lines) ∧
    (generateStreaming lines true).1.flatten =
      fullResponse lines ++ (if lines.isEmpty then [] else "\n".data) := by
  refine ⟨rfl, ?_⟩
  cases lines with
  | nil => rfl
  | cons l rest =>
    have hl : l ≠ [] := fun he => h (by rw [he]; rfl)
    have hfr : fullResponse (l :: rest) = l ++ rest.flatMap (fun x => '\n' :: x) := by
      unfold fullResponse
      rw [List.foldl_cons]
      have hbase : (if ([] : List Char).isEmpty then ([] : List Char) ++ l
          else [] ++ "\n".data ++ l) = l := by simp
      rw [hbase]
      exact foldl_acc_nonempty rest l hl
    show (streamedChunks (l :: rest)).flatten = _
    rw [flatten_streamedChunks, hfr]
    simp only [List.isEmpty_cons, List.flatMap_cons, List.append_assoc]
    rw [show (['\n'] ++ rest.flatMap (fun x => x ++ ['\n']))
        = '\n' :: rest.flatMap (fun x => x ++ ['\n']) from rfl]
    rw [chunks_shift]
    simp

/-- C4 witness: the amended statement at the concrete two-line stream
`ab`, `c`. -/
theorem c4_stream_is_return_plus_newline_witness :
    (generateStreaming ["ab".data, "c".data] true).2 =
      .ok (fullResponse ["ab".data, "c".data]) ∧
    (generateStreaming ["ab".data, "c".data] true).1.flatten =
      fullResponse ["ab".data, "c".data] ++
        (if (["ab".data, "c".data] : List (List Char)).isEmpty then []
         else "\n".data) :=
  c4_stream_is_return_plus_newline ["ab".data, "c".data] (by decide)

/-- The fields of a task other than status and result are unchanged. -/
def preservesSkeleton (t t' : Task) : Prop :=
  t'.id = t.id ∧ t'.title = t.title ∧ t'.description = t.description ∧
  t'.task_type = t.task_type ∧ t'.assigned_to = t.assigned_to

/-- Frame relation for one `process_task` call: every task keeps its
skeleton, and tasks with a different id are fully unchanged. -/
def frameRel (tid : Nat) (t t' : Task) : Prop :=
  preservesSkeleton t t' ∧ (t.id ≠ tid → t' = t)

/-- The frame relation is reflexive. -/
theorem frameRel_refl (tid : Nat) (t : Task) : frameRel tid t t :=
  ⟨⟨rfl, rfl, rfl, rfl, rfl⟩, fun _ => rfl⟩

/-- An untouched task list is in the frame relation with itself. -/
theorem forall₂_frameRel_same (tid : Nat) (ts : List Task) :
    List.Forall₂ (frameRel tid) ts ts :=
  List.forall₂_same.mpr (fun t _ => frameRel_refl tid t)

/-- Updating the first task with the given id through a skeleton-preserving
function keeps the whole list in the frame relation. -/
theorem updateFirst_frame (tid : Nat) (f : Task → Task)
    (hf : ∀ t, preservesSkeleton t (f t)) :
    ∀ ts : List Task,
      List.Forall₂ (frameRel tid) ts (updateFirst (fun t => t.id == tid) f ts) := by
  intro ts
  induction ts with
  | nil => exact List.Forall₂.nil
  | cons x xs ih =>
    by_cases hx : (x.id == tid) = true
    · rw [updateFirst, if_pos hx]
      refine List.Forall₂.cons ⟨hf x, fun hne => absurd (by simpa using hx) hne⟩ ?_
      exact forall₂_frameRel_same tid xs
    · rw [updateFirst, if_neg hx]
      exact List.Forall₂.cons (frameRel_refl tid x) ih

/-- The frame relation is transitive. -/
theorem frameRel_trans (tid : Nat) (a b c : Task)
    (h1 : frameRel tid a b) (h2 : frameRel tid b c) : frameRel tid a c := by
  obtain ⟨sk1, e1⟩ := h1
  obtain ⟨sk2, e2⟩ := h2
  refine ⟨⟨sk2.1.trans sk1.1, sk2.2.1.trans sk1.2.1, sk2.2.2.1.trans sk1.2.2.1,
    sk2.2.2.2.1.trans sk1.2.2.2.1, sk2.2.2.2.2.trans sk1.2.2.2.2⟩, fun hne => ?_⟩
  have hb : b.id ≠ tid := by rw [sk1.1]; exact hne
  rw [e2 hb, e1 hne]

/-- Chaining two frame-related updates stays frame-related. -/
theorem forall₂_frame_trans (tid : Nat) :
    ∀ {l1 l2 l3 : List Task}, List.Forall₂ (frameRel tid) l1 l2 →
      List.Forall₂ (frameRel tid) l2 l3 → List.Forall₂ (frameRel tid) l1 l3 := by
  intro l1 l2 l3 h12
  induction h12 generalizing l3 with
  | nil => intro h; exact h
  | cons hab h ih =>
    intro h23
    cases h23 with
    | cons hbc h2 => exact List.Forall₂.cons (frameRel_trans _ _ _ _ hab hbc) (ih h2)

/-- C10: `process_task` mutates at most the task record with the given id,
and only its status and result fields; every other task record, the member
list, the provider key set, and the next-task-id counter are unchanged —
in every branch, including the error returns. -/
theorem c10_process_task_frame (gen : Gen) (st : SupportTeam) (tid : Nat) :
    (processTask gen st tid).2.members = st.members ∧
    (processTask gen st tid).2.providers = st.providers ∧
    (processTask gen st tid).2.next_task_id = st.next_task_id ∧
    List.Forall₂ (frameRel tid) st.tasks (processTask gen st tid).2.tasks := by
  have hin : ∀ t : Task, preservesSkeleton t { t with status := .InProgress } :=
    fun t => ⟨rfl, rfl, rfl, rfl, rfl⟩
  unfold processTask
  split
  · exact ⟨rfl, rfl, rfl, forall₂_frameRel_same tid st.tasks⟩
  · split
    · exact ⟨rfl, rfl, rfl, updateFirst_frame tid _ hin st.tasks⟩
    · split
      · dsimp only
        split
        · rename_i response heq
          exact ⟨rfl, rfl, rfl,
            forall₂_frame_trans tid (updateFirst_frame tid _ hin st.tasks)
              (updateFirst_frame tid
                (fun t => { t with status := .Completed, result := some response })
                (fun t => ⟨rfl, rfl, rfl, rfl, rfl⟩) _)⟩
        · exact ⟨rfl, rfl, rfl,
            forall₂_frame_trans tid (updateFirst_frame tid _ hin st.tasks)
              (updateFirst_frame tid
                (fun t => { t with status := .Failed })
                (fun t => ⟨rfl, rfl, rfl, rfl, rfl⟩) _)⟩
      · exact ⟨rfl, rfl, rfl, updateFirst_frame tid _ hin st.tasks⟩



/-- A task type with no matched keywords scores zero. -/
theorem scoreKeywords_of_found_nil (t : List Char) (kws : List (List Char))
    (h : (scoreKeywords t kws).2 = []) : scoreKeywords t kws = (0, []) := by
  unfold scoreKeywords at h ⊢
  simp only at h
  rw [h]
  simp

/-- The index of a member keyword is below the table length. -/
theorem indexOf_lt_of_mem {k : List Char} :
    ∀ {kws : List (List Char)}, k ∈ kws → kws.indexOf k < kws.length := by
  intro kws
  induction kws with
  | nil => intro h; cases h
  | cons a l ih =>
    intro h
    by_cases hak : (a == k) = true
    · simp [List.indexOf_cons, hak]
    · have hk : k ∈ l := by
        cases h with
        | head => exact absurd (by simp) hak
        | tail _ h2 => exact h2
      simp [List.indexOf_cons, hak]
      exact ih hk

/-- Every matched keyword's position bonus strictly exceeds one half. -/
theorem positionBonus_gt_half (kws : List (List Char)) (k : List Char)
    (hk : k ∈ kws) : (1 / 2 : ℚ) < positionBonus kws k := by
  have hlt : kws.indexOf k < kws.length := indexOf_lt_of_mem hk
  have hLpos : (0 : ℚ) < (kws.length : ℚ) := by
    have : 0 < kws.length := Nat.lt_of_le_of_lt (Nat.zero_le _) hlt
    exact_mod_cast this
  have hdiv : ((kws.indexOf k : ℚ) / (kws.length : ℚ)) < 1 := by
    rw [div_lt_one hLpos]
    exact_mod_cast hlt
  have hnn : (0 : ℚ) ≤ (kws.indexOf k : ℚ) / (kws.length : ℚ) :=
    div_nonneg (by positivity) hLpos.le
  unfold positionBonus
  linarith

/-- Every matched keyword contributes strictly more than 0.1 to the score. -/
theorem scoreTerm_gt_tenth (kws : List (List Char)) (k : List Char)
    (hk : k ∈ kws) : (1 / 10 : ℚ) < (1 / 5 : ℚ) * positionBonus kws k := by
  have := positionBonus_gt_half kws k hk
  linarith

/-- Two or more matched keywords push the capped score strictly above 0.2. -/
theorem score_gt_fifth_of_two_found (t : List Char) (kws : List (List Char))
    (h2 : 2 ≤ (scoreKeywords t kws).2.length) :
    (1 / 5 : ℚ) < (scoreKeywords t kws).1 := by
  unfold scoreKeywords at h2 ⊢
  simp only at h2 ⊢
  rw [lt_min_iff]
  refine ⟨?_, by norm_num⟩
  cases hf : kws.filter (fun k => containsSub t k) with
  | nil => rw [hf] at h2; simp at h2
  | cons a rest =>
    cases rest with
    | nil => rw [hf] at h2; simp at h2
    | cons b rest2 =>
      have ha : a ∈ kws := List.mem_of_mem_filter (hf ▸ List.mem_cons_self a _)
      have hb : b ∈ kws := List.mem_of_mem_filter
        (hf ▸ List.mem_cons_of_mem a (List.mem_cons_self b _))
      have hrest : ∀ x ∈ (rest2.map (fun k => (1 / 5 : ℚ) * positionBonus kws k)), 0 ≤ x := by
        intro x hx
        obtain ⟨kk, hkk, hxe⟩ := List.mem_map.mp hx
        have hkkm : kk ∈ kws := List.mem_of_mem_filter
          (hf ▸ List.mem_cons_of_mem a (List.mem_cons_of_mem b hkk))
        have := scoreTerm_gt_tenth kws kk hkkm
        rw [← hxe]
        linarith
      have hsum : 0 ≤ (rest2.map (fun k => (1 / 5 : ℚ) * positionBonus kws k)).sum :=
        List.sum_nonneg hrest
      have hta := scoreTerm_gt_tenth kws a ha
      have htb := scoreTerm_gt_tenth kws b hb
      simp only [List.map_cons, List.sum_cons]
      linarith



/-- The running best survives a block of zero-scoring entries. -/
theorem foldl_keep_best (zs : List (TaskType × ℚ × List (List Char))) :
    ∀ best, (∀ y ∈ zs, y.2.1 = 0) → 0 ≤ best.2.1 →
      zs.foldl (fun best y => if best.2.1 < y.2.1 then y else best) best = best := by
  induction zs with
  | nil => intro best _ _; rfl
  | cons z zs ih =>
    intro best hz hb
    have hz0 : z.2.1 = 0 := hz z (List.mem_cons_self z zs)
    have hcond : ¬ (best.2.1 < z.2.1) := by rw [hz0]; exact not_lt.mpr hb
    rw [List.foldl_cons, if_neg hcond]
    exact ih best (fun y hy => hz y (List.mem_cons_of_mem z hy)) hb

/-- With a single positively-scoring entry among zero-scoring ones, the
stable descending sort puts that entry first. -/
theorem selectBest_append (pre post : List (TaskType × ℚ × List (List Char)))
    (x : TaskType × ℚ × List (List Char))
    (hpre : ∀ y ∈ pre, y.2.1 = 0) (hpost : ∀ y ∈ post, y.2.1 = 0)
    (hx : 0 < x.2.1) : selectBest (pre ++ x :: post) = x := by
  cases pre with
  | nil =>
    show post.foldl _ x = x
    exact foldl_keep_best post x hpost hx.le
  | cons p pre2 =>
    show (pre2 ++ x :: post).foldl _ p = x
    rw [List.foldl_append]
    rw [foldl_keep_best pre2 p
      (fun y hy => hpre y (List.mem_cons_of_mem p hy))
      (by rw [hpre p (List.mem_cons_self p pre2)])]
    rw [List.foldl_cons]
    have hstep : (if p.2.1 < x.2.1 then x else p) = x := by
      rw [hpre p (List.mem_cons_self p pre2)]
      exact if_pos hx
    rw [hstep]
    exact foldl_keep_best post x hpost hx.le



/-- Reading the classifier result off the selected best entry. -/
theorem analyze_of_selectBest (request : List Char) (tt : TaskType)
    (p : ℚ × List (List Char))
    (hbest : selectBest (scoredTypes.map
      (fun t => (t, scoreKeywords (lowerText request) (keywordTable t)))) = (tt, p))
    (hs : (1 / 5 : ℚ) < p.1) :
    (analyzeRequestDetailed request).primary_type = tt ∧
    (1 / 5 : ℚ) < (analyzeRequestDetailed request).confidence := by
  unfold analyzeRequestDetailed
  simp only [hbest]
  exact ⟨if_pos hs, hs⟩



/-- C1 amended: for every request whose lowercased text matches at least two
keywords of one scored Intent's table and no keyword of any other Intent's
table, `analyze_request_detailed` returns that Intent as primary type with
confidence strictly above 0.2. (A single matched keyword scores at most
`0.2 * position_bonus <= 0.2`, which fails the strict `> 0.2` test, and
keywords of other tables can outscore the exclusive Intent, so both extra
conditions are needed.) -/
theorem c1_two_keywords_single_intent (request : List Char) (tt : TaskType)
    (htt : tt ∈ scoredTypes)
    (h2 : 2 ≤ (scoreKeywords (lowerText request) (keywordTable tt)).2.length)
    (hothers : ∀ tt' ∈ scoredTypes, tt' ≠ tt →
      (scoreKeywords (lowerText request) (keywordTable tt')).2 = []) :
    (analyzeRequestDetailed request).primary_type = tt ∧
    (1 / 5 : ℚ) < (analyzeRequestDetailed request).confidence := by
  fin_cases htt
  · -- Write
    have hpos : (0 : ℚ) < (scoreKeywords (lowerText request) (keywordTable TaskType.Write)).1 :=
      lt_trans (by norm_num) (score_gt_fifth_of_two_found _ _ h2)
    have e0 := scoreKeywords_of_found_nil (lowerText request) (keywordTable TaskType.Research)
      (hothers TaskType.Research (by decide) (by decide))
    have e1 := scoreKeywords_of_found_nil (lowerText request) (keywordTable TaskType.Analyze)
      (hothers TaskType.Analyze (by decide) (by decide))
    have e2 := scoreKeywords_of_found_nil (lowerText request) (keywordTable TaskType.Create)
      (hothers TaskType.Create (by decide) (by decide))
    have e3 := scoreKeywords_of_found_nil (lowerText request) (keywordTable TaskType.Edit)
      (hothers TaskType.Edit (by decide) (by decide))
    have e4 := scoreKeywords_of_found_nil (lowerText request) (keywordTable TaskType.Explain)
      (hothers TaskType.Explain (by decide) (by decide))
    have e5 := scoreKeywords_of_found_nil (lowerText request) (keywordTable TaskType.Solve)
      (hothers TaskType.Solve (by decide) (by decide))
    refine analyze_of_selectBest request _ _ ?_ (score_gt_fifth_of_two_found _ _ h2)
    simp only [scoredTypes, List.map_cons, List.map_nil]
    rw [e0, e1, e2, e3, e4, e5]
    exact selectBest_append [] [(TaskType.Research, ((0 : ℚ), ([] : List (List Char)))), (TaskType.Analyze, ((0 : ℚ), ([] : List (List Char)))), (TaskType.Create, ((0 : ℚ), ([] : List (List Char)))), (TaskType.Edit, ((0 : ℚ), ([] : List (List Char)))), (TaskType.Explain, ((0 : ℚ), ([] : List (List Char)))), (TaskType.Solve, ((0 : ℚ), ([] : List (List Char))))] _
      (by intro y hy; fin_cases hy)
      (by intro y hy; fin_cases hy <;> rfl) hpos
  · -- Research
    have hpos : (0 : ℚ) < (scoreKeywords (lowerText request) (keywordTable TaskType.Research)).1 :=
      lt_trans (by norm_num) (score_gt_fifth_of_two_found _ _ h2)
    have e0 := scoreKeywords_of_found_nil (lowerText request) (keywordTable TaskType.Write)
      (hothers TaskType.Write (by decide) (by decide))
    have e1 := scoreKeywords_of_found_nil (lowerText request) (keywordTable TaskType.Analyze)
      (hothers TaskType.Analyze (by decide) (by decide))
    have e2 := scoreKeywords_of_found_nil (lowerText request) (keywordTable TaskType.Create)
      (hothers TaskType.Create (by decide) (by decide))
    have e3 := scoreKeywords_of_found_nil (lowerText request) (keywordTable TaskType.Edit)
      (hothers TaskType.Edit (by decide) (by decide))
    have e4 := scoreKeywords_of_found_nil (lowerText request) (keywordTable TaskType.Explain)
      (hothers TaskType.Explain (by decide) (by decide))
    have e5 := scoreKeywords_of_found_nil (lowerText request) (keywordTable TaskType.Solve)
      (hothers TaskType.Solve (by decide) (by decide))
    refine analyze_of_selectBest request _ _ ?_ (score_gt_fifth_of_two_found _ _ h2)
    simp only [scoredTypes, List.map_cons, List.map_nil]
    rw [e0, e1, e2, e3, e4, e5]
    exact selectBest_append [(TaskType.Write, ((0 : ℚ), ([] : List (List Char))))] [(TaskType.Analyze, ((0 : ℚ), ([] : List (List Char)))), (TaskType.Create, ((0 : ℚ), ([] : List (List Char)))), (TaskType.Edit, ((0 : ℚ), ([] : List (List Char)))), (TaskType.Explain, ((0 : ℚ), ([] : List (List Char)))), (TaskType.Solve, ((0 : ℚ), ([] : List (List Char))))] _
      (by intro y hy; fin_cases hy; rfl)
      (by intro y hy; fin_cases hy <;> rfl) hpos
  · -- Analyze
    have hpos : (0 : ℚ) < (scoreKeywords (lowerText request) (keywordTable TaskType.Analyze)).1 :=
      lt_trans (by norm_num) (score_gt_fifth_of_two_found _ _ h2)
    have e0 := scoreKeywords_of_found_nil (lowerText request) (keywordTable TaskType.Write)
      (hothers TaskType.Write (by decide) (by decide))
    have e1 := scoreKeywords_of_found_nil (lowerText request) (keywordTable TaskType.Research)
      (hothers TaskType.Research (by decide) (by decide))
    have e2 := scoreKeywords_of_found_nil (lowerText request) (keywordTable TaskType.Create)
      (hothers TaskType.Create (by decide) (by decide))
    have e3 := scoreKeywords_of_found_nil (lowerText request) (keywordTable TaskType.Edit)
      (hothers TaskType.Edit (by decide) (by decide))
    have e4 := scoreKeywords_of_found_nil (lowerText request) (keywordTable TaskType.Explain)
      (hothers TaskType.Explain (by decide) (by decide))
    have e5 := scoreKeywords_of_found_nil (lowerText request) (keywordTable TaskType.Solve)
      (hothers TaskType.Solve (by decide) (by decide))
    refine analyze_of_selectBest request _ _ ?_ (score_gt_fifth_of_two_found _ _ h2)
    simp only [scoredTypes, List.map_cons, List.map_nil]
    rw [e0, e1, e2, e3, e4, e5]
    exact selectBest_append [(TaskType.Write, ((0 : ℚ), ([] : List (List Char)))), (TaskType.Research, ((0 : ℚ), ([] : List (List Char))))] [(TaskType.Create, ((0 : ℚ), ([] : List (List Char)))), (TaskType.Edit, ((0 : ℚ), ([] : List (List Char)))), (TaskType.Explain, ((0 : ℚ), ([] : List (List Char)))), (TaskType.Solve, ((0 : ℚ), ([] : List (List Char))))] _
      (by intro y hy; fin_cases hy <;> rfl)
      (by intro y hy; fin_cases hy <;> rfl) hpos
  · -- Create
    have hpos : (0 : ℚ) < (scoreKeywords (lowerText request) (keywordTable TaskType.Create)).1 :=
      lt_trans (by norm_num) (score_gt_fifth_of_two_found _ _ h2)
    have e0 := scoreKeywords_of_found_nil (lowerText request) (keywordTable TaskType.Write)
      (hothers TaskType.Write (by decide) (by decide))
    have e1 := scoreKeywords_of_found_nil (lowerText request) (keywordTable TaskType.Research)
      (hothers TaskType.Research (by decide) (by decide))
    have e2 := scoreKeywords_of_found_nil (lowerText request) (keywordTable TaskType.Analyze)
      (hothers TaskType.Analyze (by decide) (by decide))
    have e3 := scoreKeywords_of_found_nil (lowerText request) (keywordTable TaskType.Edit)
      (hothers TaskType.Edit (by decide) (by decide))
    have e4 := scoreKeywords_of_found_nil (lowerText request) (keywordTable TaskType.Explain)
      (hothers TaskType.Explain (by decide) (by decide))
    have e5 := scoreKeywords_of_found_nil (lowerText request) (keywordTable TaskType.Solve)
      (hothers TaskType.Solve (by decide) (by decide))
    refine analyze_of_selectBest request _ _ ?_ (score_gt_fifth_of_two_found _ _ h2)
    simp only [scoredTypes, List.map_cons, List.map_nil]
    rw [e0, e1, e2, e3, e4, e5]
    exact selectBest_append [(TaskType.Write, ((0 : ℚ), ([] : List (List Char)))), (TaskType.Research, ((0 : ℚ), ([] : List (List Char)))), (TaskType.Analyze, ((0 : ℚ), ([] : List (List Char))))] [(TaskType.Edit, ((0 : ℚ), ([] : List (List Char)))), (TaskType.Explain, ((0 : ℚ), ([] : List (List Char)))), (TaskType.Solve, ((0 : ℚ), ([] : List (List Char))))] _
      (by intro y hy; fin_cases hy <;> rfl)
      (by intro y hy; fin_cases hy <;> rfl) hpos
  · -- Edit
    have hpos : (0 : ℚ) < (scoreKeywords (lowerText request) (keywordTable TaskType.Edit)).1 :=
      lt_trans (by norm_num) (score_gt_fifth_of_two_found _ _ h2)
    have e0 := scoreKeywords_of_found_nil (lowerText request) (keywordTable TaskType.Write)
      (hothers TaskType.Write (by decide) (by decide))
    have e1 := scoreKeywords_of_found_nil (lowerText request) (keywordTable TaskType.Research)
      (hothers TaskType.Research (by decide) (by decide))
    have e2 := scoreKeywords_of_found_nil (lowerText request) (keywordTable TaskType.Analyze)
      (hothers TaskType.Analyze (by decide) (by decide))
    have e3 := scoreKeywords_of_found_nil (lowerText request) (keywordTable TaskType.Create)
      (hothers TaskType.Create (by decide) (by decide))
    have e4 := scoreKeywords_of_found_nil (lowerText request) (keywordTable TaskType.Explain)
      (hothers TaskType.Explain (by decide) (by decide))
    have e5 := scoreKeywords_of_found_nil (lowerText request) (keywordTable TaskType.Solve)
      (hothers TaskType.Solve (by decide) (by decide))
    refine analyze_of_selectBest request _ _ ?_ (score_gt_fifth_of_two_found _ _ h2)
    simp only [scoredTypes, List.map_cons, List.map_nil]
    rw [e0, e1, e2, e3, e4, e5]
    exact selectBest_append [(TaskType.Write, ((0 : ℚ), ([] : List (List Char)))), (TaskType.Research, ((0 : ℚ), ([] : List (List Char)))), (TaskType.Analyze, ((0 : ℚ), ([] : List (List Char)))), (TaskType.Create, ((0 : ℚ), ([] : List (List Char))))] [(TaskType.Explain, ((0 : ℚ), ([] : List (List Char)))), (TaskType.Solve, ((0 : ℚ), ([] : List (List Char))))] _
      (by intro y hy; fin_cases hy <;> rfl)
      (by intro y hy; fin_cases hy <;> rfl) hpos
  · -- Explain
    have hpos : (0 : ℚ) < (scoreKeywords (lowerText request) (keywordTable TaskType.Explain)).1 :=
      lt_trans (by norm_num) (score_gt_fifth_of_two_found _ _ h2)
    have e0 := scoreKeywords_of_found_nil (lowerText request) (keywordTable TaskType.Write)
      (hothers TaskType.Write (by decide) (by decide))
    have e1 := scoreKeywords_of_found_nil (lowerText request) (keywordTable TaskType.Research)
      (hothers TaskType.Research (by decide) (by decide))
    have e2 := scoreKeywords_of_found_nil (lowerText request) (keywordTable TaskType.Analyze)
      (hothers TaskType.Analyze (by decide) (by decide))
    have e3 := scoreKeywords_of_found_nil (lowerText request) (keywordTable TaskType.Create)
      (hothers TaskType.Create (by decide) (by decide))
    have e4 := scoreKeywords_of_found_nil (lowerText request) (keywordTable TaskType.Edit)
      (hothers TaskType.Edit (by decide) (by decide))
    have e5 := scoreKeywords_of_found_nil (lowerText request) (keywordTable TaskType.Solve)
      (hothers TaskType.Solve (by decide) (by decide))
    refine analyze_of_selectBest request _ _ ?_ (score_gt_fifth_of_two_found _ _ h2)
    simp only [scoredTypes, List.map_cons, List.map_nil]
    rw [e0, e1, e2, e3, e4, e5]
    exact selectBest_append [(TaskType.Write, ((0 : ℚ), ([] : List (List Char)))), (TaskType.Research, ((0 : ℚ), ([] : List (List Char)))), (TaskType.Analyze, ((0 : ℚ), ([] : List (List Char)))), (TaskType.Create, ((0 : ℚ), ([] : List (List Char)))), (TaskType.Edit, ((0 : ℚ), ([] : List (List Char))))] [(TaskType.Solve, ((0 : ℚ), ([] : List (List Char))))] _
      (by intro y hy; fin_cases hy <;> rfl)
      (by intro y hy; fin_cases hy; rfl) hpos
  · -- Solve
    have hpos : (0 : ℚ) < (scoreKeywords (lowerText request) (keywordTable TaskType.Solve)).1 :=
      lt_trans (by norm_num) (score_gt_fifth_of_two_found _ _ h2)
    have e0 := scoreKeywords_of_found_nil (lowerText request) (keywordTable TaskType.Write)
      (hothers TaskType.Write (by decide) (by decide))
    have e1 := scoreKeywords_of_found_nil (lowerText request) (keywordTable TaskType.Research)
      (hothers TaskType.Research (by decide) (by decide))
    have e2 := scoreKeywords_of_found_nil (lowerText request) (keywordTable TaskType.Analyze)
      (hothers TaskType.Analyze (by decide) (by decide))
    have e3 := scoreKeywords_of_found_nil (lowerText request) (keywordTable TaskType.Create)
      (hothers TaskType.Create (by decide) (by decide))
    have e4 := scoreKeywords_of_found_nil (lowerText request) (keywordTable TaskType.Edit)
      (hothers TaskType.Edit (by decide) (by decide))
    have e5 := scoreKeywords_of_found_nil (lowerText request) (keywordTable TaskType.Explain)
      (hothers TaskType.Explain (by decide) (by decide))
    refine analyze_of_selectBest request _ _ ?_ (score_gt_fifth_of_two_found _ _ h2)
    simp only [scoredTypes, List.map_cons, List.map_nil]
    rw [e0, e1, e2, e3, e4, e5]
    exact selectBest_append [(TaskType.Write, ((0 : ℚ), ([] : List (List Char)))), (TaskType.Research, ((0 : ℚ), ([] : List (List Char)))), (TaskType.Analyze, ((0 : ℚ), ([] : List (List Char)))), (TaskType.Create, ((0 : ℚ), ([] : List (List Char)))), (TaskType.Edit, ((0 : ℚ), ([] : List (List Char)))), (TaskType.Explain, ((0 : ℚ), ([] : List (List Char))))] [] _
      (by intro y hy; fin_cases hy <;> rfl)
      (by intro y hy; fin_cases hy) hpos


set_option maxRecDepth 40000 in
/-- C1 counterexample: the request `draft` contains the keyword `draft`,
which appears exclusively in the Write table (and is its only match in any
table), yet the classifier returns General — the single match scores
`0.2 * (1 - (1/18) * 0.5) = 7/36 <= 0.2`, failing the strict threshold. -/
theorem c1_exclusive_keyword_counterexample :
    "draft".data ∈ writeKeywords ∧
    (∀ tt ∈ [TaskType.Research, TaskType.Analyze, TaskType.Create,
      TaskType.Edit, TaskType.Explain, TaskType.Solve],
      ¬ "draft".data ∈ keywordTable tt) ∧
    (scoreKeywords (lowerText "draft".data) writeKeywords).2 = ["draft".data] ∧
    (∀ tt ∈ [TaskType.Research, TaskType.Analyze, TaskType.Create,
      TaskType.Edit, TaskType.Explain, TaskType.Solve],
      (scoreKeywords (lowerText "draft".data) (keywordTable tt)).2 = []) ∧
    (analyzeRequestDetailed "draft".data).primary_type = TaskType.General ∧
    ¬ ((1 / 5 : ℚ) < (analyzeRequestDetailed "draft".data).confidence) := by
  with_unfolding_all decide

set_option maxRecDepth 40000 in
/-- C1 witness: `write a blog post` matches three Write keywords and none of
any other table, so the amended theorem applies and yields Write with
confidence above 0.2. -/
theorem c1_two_keywords_single_intent_witness :
    (analyzeRequestDetailed "write a blog post".data).primary_type
      = TaskType.Write ∧
    (1 / 5 : ℚ) <
      (analyzeRequestDetailed "write a blog post".data).confidence :=
  c1_two_keywords_single_intent "write a blog post".data TaskType.Write
    (by decide) (by decide) (by decide)

end Workyterm
